import Mathlib

/-!
Verification of the tmpemail mail-intake pipeline and fan-out hub.

The definitions below are a shallow embedding of the Go sources:
  - email-service/storage/storage.go   (filename sanitization)
  - email-service/client/api_client.go (store-with-retry client)
  - email-service/main.go              (SMTP session: Rcpt, Data, auth checks)
  - api/websocket hub                  (subscribe / unsubscribe / broadcast)
Machine integers are modelled as Nat or Int (no overflow is relevant at the
sizes involved); fallible operations return Except or are driven by explicit
oracles standing for the network environment.
-/

namespace TmpEmail

/-! ## Storage: sanitizeFilename (storage.go) -/

/-- Character predicate used by sanitizeFilename in storage.go:
ASCII alphanumerics and the characters dot, dash, underscore are kept. -/
def keepChar (ch : Char) : Bool :=
  (('a' ≤ ch && ch ≤ 'z') || ('A' ≤ ch && ch ≤ 'Z') ||
   ('0' ≤ ch && ch ≤ '9') || ch == '.' || ch == '-' || ch == '_')

/-- Per-character action of sanitizeFilename: a kept character is unchanged,
every other character becomes an underscore. -/
def sanitizeChar (ch : Char) : Char :=
  if keepChar ch then ch else '_'

/-- Embedding of storage.go sanitizeFilename: the loop appends either the
rune itself or an underscore, which is exactly a character-wise map. -/
def sanitizeFilename (filename : String) : String :=
  ⟨filename.data.map sanitizeChar⟩

theorem sanitizeChar_idem (c : Char) : sanitizeChar (sanitizeChar c) = sanitizeChar c := by
  by_cases h : keepChar c = true
  · simp [sanitizeChar, h]
  · simp only [sanitizeChar, h]
    simp

/-! ## API client: StoreEmail retry loop (api_client.go) -/

/-- Trace of one StoreEmail call: how many attempts were made, the sleeps
performed between attempts (in seconds, the base unit), and whether one of
the attempts succeeded. -/
structure StoreTrace where
  attempts : Nat
  sleeps : List Nat
  success : Bool
deriving Repr, DecidableEq

/-- Embedding of the retry loop body of APIClient.StoreEmail.  The first
argument is the oracle saying whether the attempt with a given index
succeeds (standing for doStoreEmail); the loop sleeps 2 ^ (attempt - 1)
seconds before every attempt after the first and returns on the first
success. -/
def storeEmailGo (oracle : Nat → Bool) : Nat → Nat → StoreTrace
  | _attempt, 0 => { attempts := 0, sleeps := [], success := false }
  | attempt, rem + 1 =>
    let pre : List Nat := if 0 < attempt then [2 ^ (attempt - 1)] else []
    if oracle attempt then
      { attempts := 1, sleeps := pre, success := true }
    else
      let t := storeEmailGo oracle (attempt + 1) rem
      { attempts := t.attempts + 1, sleeps := pre ++ t.sleeps, success := t.success }

/-- Constant maxRetries from APIClient.StoreEmail. -/
def maxRetries : Nat := 3

/-- Embedding of APIClient.StoreEmail: run the loop from attempt 0 with
maxRetries iterations available. -/
def StoreEmail (oracle : Nat → Bool) : StoreTrace :=
  storeEmailGo oracle 0 maxRetries

/-! ## Theorems for claims C9 and C2 -/

theorem sanitizeChar_map_idem (l : List Char) :
    (l.map sanitizeChar).map sanitizeChar = l.map sanitizeChar := by
  induction l with
  | nil => rfl
  | cons c cs ih => simp only [List.map_cons, sanitizeChar_idem, ih]

/-- Claim C9: sanitizeFilename is idempotent; it keeps exactly the ASCII
alphanumerics and dot, dash, underscore unchanged and replaces every other
character with an underscore, hence a second application changes nothing. -/
theorem spec_c9_sanitize_idempotent (s : String) :
    sanitizeFilename (sanitizeFilename s) = sanitizeFilename s :=
  congrArg (fun l => ({ data := l } : String)) (sanitizeChar_map_idem s.data)

/-- Claim C2: a StoreEmail call makes at most 3 attempts, the sleeps between
consecutive attempts follow the exponential schedule 1, 2, 4 seconds (the
realized sleeps are the prefix of that schedule with one entry per gap
between attempts), and once an attempt succeeds no further attempt is made
(the successful attempt is the last one, all earlier ones failed). -/
theorem spec_c2_store_retry (oracle : Nat → Bool) :
    (StoreEmail oracle).attempts ≤ 3 ∧
    (StoreEmail oracle).sleeps = [1, 2, 4].take ((StoreEmail oracle).attempts - 1) ∧
    ((StoreEmail oracle).success = true →
      oracle ((StoreEmail oracle).attempts - 1) = true ∧
      ∀ j, j < (StoreEmail oracle).attempts - 1 → oracle j = false) := by
  have heq : StoreEmail oracle =
      if oracle 0 then ⟨1, [], true⟩
      else if oracle 1 then ⟨2, [1], true⟩
      else if oracle 2 then ⟨3, [1, 2], true⟩
      else ⟨3, [1, 2], false⟩ := by
    rcases h0 : oracle 0 with _ | _ <;> rcases h1 : oracle 1 with _ | _ <;>
      rcases h2 : oracle 2 with _ | _ <;>
        simp [StoreEmail, maxRetries, storeEmailGo, h0, h1, h2]
  rw [heq]
  rcases h0 : oracle 0 with _ | _ <;> rcases h1 : oracle 1 with _ | _ <;>
    rcases h2 : oracle 2 with _ | _ <;> simp [h0, h1, h2]
  all_goals
    intro j hj
    rcases (by omega : j = 0 ∨ j = 1) with rfl | rfl
    · exact h0
    · exact h1

/-- Witness for claim C2 at the concrete oracle that succeeds on attempt 1:
two attempts are made and the attempt at the final index succeeded. -/
theorem spec_c2_store_retry_witness :
    (StoreEmail (fun k => k == 1)).attempts ≤ 3 ∧
    (fun k => k == 1) ((StoreEmail (fun k => k == 1)).attempts - 1) = true :=
  ⟨(spec_c2_store_retry (fun k => k == 1)).1,
   ((spec_c2_store_retry (fun k => k == 1)).2.2 (by decide)).1⟩

/-! ## Configuration (config.go and the fields used by main.go) -/

/-- Embedding of the email-service Config fields that the SMTP session
reads: the size ceiling and the sender-authentication switches. -/
structure Config where
  MaxEmailSize : Nat
  ValidateSPF : Bool
  ValidateDKIM : Bool
  ValidateDMARC : Bool
  AuthPolicy : String
deriving Repr, DecidableEq

/-- Default MaxEmailSize from config.Load (20 megabytes). -/
def defaultMaxEmailSize : Nat := 20 * 1024 * 1024

/-! ## SMTP session: address helpers, Rcpt, auth checks (main.go) -/

/-- Embedding of the SMTPError values returned by go-smtp handlers: a
response code and a message. -/
structure SMTPError where
  code : Nat
  message : String
deriving Repr, DecidableEq

def errTempValidation : SMTPError := ⟨451, "Temporary failure validating address"⟩

def errUserUnknown : SMTPError := ⟨550, "Recipient address rejected: User unknown"⟩

def errAddressExpired : SMTPError := ⟨550, "Recipient address rejected: Address expired"⟩

def errNoValidRecipients : SMTPError := ⟨554, "No valid recipients"⟩

def errReadFailed : SMTPError := ⟨451, "Failed to read email data"⟩

def errTooLarge : SMTPError := ⟨552, "Email exceeds maximum size (20MB)"⟩

def errAuthFailed : SMTPError := ⟨550, "Email rejected: authentication failed (SPF/DKIM/DMARC)"⟩

/-- Embedding of the ValidationResponse decoded from the authority (the
api_client.go struct). -/
structure ValidationResponse where
  Valid : Bool
  Expired : Bool
  StorageUsed : Int
  StorageQuota : Int
deriving Repr, DecidableEq

/-- Embedding of recipientInfo from main.go: an accepted recipient together
with its quota snapshot. -/
structure recipientInfo where
  address : String
  storageUsed : Int
  storageQuota : Int
deriving Repr, DecidableEq

/-- Embedding of extractEmailAddress in main.go: trim, then take the text
between the first angle brackets when both are present and ordered, then
trim again. -/
def extractEmailAddress (address : String) : String :=
  let a := address.trim
  let a :=
    if a.contains '<' && a.contains '>' then
      let start := a.posOf '<'
      let stop := a.posOf '>'
      if start < stop then a.extract ⟨start.byteIdx + 1⟩ stop else a
    else a
  a.trim

/-- Character-level splitting on a separator, the behavior of the Go
strings.Split call for a one-character separator. -/
def splitOnChar (sep : Char) : List Char → List (List Char)
  | [] => [[]]
  | c :: cs =>
    if c = sep then [] :: splitOnChar sep cs
    else
      match splitOnChar sep cs with
      | r :: rs => (c :: r) :: rs
      | [] => [[c]]

/-- Embedding of extractDomain in main.go: the part after the at sign when
splitting yields exactly two parts, otherwise the empty string. -/
def extractDomain (email : String) : String :=
  match splitOnChar '@' email.data with
  | [_, d] => ⟨d⟩
  | _ => ""

/-- Embedding of Session.Rcpt in main.go as a function of the validation
call outcome: a transport or authority error gives a 451, an invalid
recipient a 550, an expired recipient a 550, and a valid one is appended to
the accepted-recipients list together with its quota snapshot. -/
def Rcpt (recipients : List recipientInfo) (toAddr : String)
    (validation : Except Unit ValidationResponse) :
    Except SMTPError (List recipientInfo) :=
  let address := extractEmailAddress toAddr
  match validation with
  | .error _ => .error errTempValidation
  | .ok v =>
    if !v.Valid then .error errUserUnknown
    else if v.Expired then .error errAddressExpired
    else .ok (recipients ++
      [{ address := address, storageUsed := v.StorageUsed, storageQuota := v.StorageQuota }])

/-- Result values of the SPF library call, as enumerated in
spfResultToString in main.go. -/
inductive SpfResult
  | Pass | Fail | SoftFail | Neutral | None | TempError | PermError
deriving Repr, DecidableEq

/-- Embedding of spfResultToString in main.go (the default arm of the Go
switch is unreachable for the enumerated library values). -/
def spfResultToString (result : SpfResult) : String :=
  match result with
  | .Pass => "pass"
  | .Fail => "fail"
  | .SoftFail => "softfail"
  | .Neutral => "neutral"
  | .None => "none"
  | .TempError => "temperror"
  | .PermError => "permerror"

/-- Outcome of the dmarc.Lookup call in main.go: a record was found, the
distinguished ErrNoPolicy error, or any other lookup error. -/
inductive DmarcLookup
  | record
  | noPolicy
  | otherError
deriving Repr, DecidableEq

/-- Oracles standing for the three network-dependent library calls made by
validateEmailAuth: the SPF check (error or a result), dkim.Verify (error or
one verification flag per signature found), and dmarc.Lookup. -/
structure AuthEnv where
  spfCheck : Except Unit SpfResult
  dkimVerify : Except Unit (List Bool)
  dmarcLookup : DmarcLookup

/-- Embedding of the AuthResult fields that drive the policy decision (the
three error fields of the Go struct are only logged and carry no control
flow). -/
structure AuthResult where
  SPFResult : String
  DKIMResult : String
  DMARCResult : String
deriving Repr, DecidableEq

/-- SPF section of validateEmailAuth: run only when the check is enabled,
the sender domain is nonempty and a client IP is present; an error maps to
temperror, otherwise the library result is rendered as a string. -/
def spfSection (cfg : Config) (fromAddr : String) (clientIPnonNil : Bool)
    (check : Except Unit SpfResult) : String :=
  if cfg.ValidateSPF && !(extractDomain fromAddr == "") && clientIPnonNil then
    match check with
    | .error _ => "temperror"
    | .ok r => spfResultToString r
  else "none"

/-- DKIM section of validateEmailAuth: an error maps to temperror, no
signatures to none, and otherwise pass exactly when every signature
verified. -/
def dkimSection (cfg : Config) (verify : Except Unit (List Bool)) : String :=
  if cfg.ValidateDKIM then
    match verify with
    | .error _ => "temperror"
    | .ok vs =>
      if vs.length = 0 then "none"
      else if vs.all (fun b => b) then "pass" else "fail"
  else "none"

/-- DMARC section of validateEmailAuth: run only when the check is enabled
and the sender domain is nonempty; no policy maps to none, another lookup
error to temperror, and with a policy record the verdict is pass exactly
when the SPF or the DKIM verdict is pass. -/
def dmarcSection (cfg : Config) (senderDomain spfRes dkimRes : String)
    (lookup : DmarcLookup) : String :=
  if cfg.ValidateDMARC && !(senderDomain == "") then
    match lookup with
    | .noPolicy => "none"
    | .otherError => "temperror"
    | .record => if spfRes == "pass" || dkimRes == "pass" then "pass" else "fail"
  else "none"

/-- Embedding of Session.validateEmailAuth in main.go: the three sections
run in order, with the DMARC section reading the SPF and DKIM verdicts
computed before it. -/
def validateEmailAuth (cfg : Config) (fromAddr : String) (clientIPnonNil : Bool)
    (env : AuthEnv) : AuthResult :=
  let spfRes := spfSection cfg fromAddr clientIPnonNil env.spfCheck
  let dkimRes := dkimSection cfg env.dkimVerify
  { SPFResult := spfRes
    DKIMResult := dkimRes
    DMARCResult := dmarcSection cfg (extractDomain fromAddr) spfRes dkimRes env.dmarcLookup }

/-- Embedding of Session.shouldRejectEmail in main.go. -/
def shouldRejectEmail (cfg : Config) (authResult : AuthResult) : Bool :=
  if !(cfg.AuthPolicy == "reject") then false
  else if cfg.ValidateSPF &&
      (authResult.SPFResult == "fail" || authResult.SPFResult == "permerror") then true
  else if cfg.ValidateDKIM && authResult.DKIMResult == "fail" then true
  else if cfg.ValidateDMARC && authResult.DMARCResult == "fail" then true
  else false

/-! ## Theorems for claims C3, C5 and C6 -/

/-- Claim C3: the Rcpt outcome is determined by the validation result:
a transport or authority error gives a temporary 4xx rejection, an unknown
recipient a permanent 5xx rejection, an expired recipient a permanent 5xx
rejection, and a valid recipient is accepted with its returned quota-used
and quota-limit captured in the accepted-recipients list. -/
theorem spec_c3_rcpt_outcomes (recipients : List recipientInfo) (toAddr : String)
    (v : ValidationResponse) :
    (Rcpt recipients toAddr (Except.error ()) = Except.error errTempValidation ∧
      errTempValidation.code / 100 = 4) ∧
    (v.Valid = false →
      Rcpt recipients toAddr (Except.ok v) = Except.error errUserUnknown ∧
      errUserUnknown.code / 100 = 5) ∧
    (v.Valid = true → v.Expired = true →
      Rcpt recipients toAddr (Except.ok v) = Except.error errAddressExpired ∧
      errAddressExpired.code / 100 = 5) ∧
    (v.Valid = true → v.Expired = false →
      Rcpt recipients toAddr (Except.ok v) =
        Except.ok (recipients ++
          [⟨extractEmailAddress toAddr, v.StorageUsed, v.StorageQuota⟩])) := by
  refine ⟨⟨rfl, rfl⟩, ?_, ?_, ?_⟩
  · intro hv
    exact ⟨by simp [Rcpt, hv], rfl⟩
  · intro hv he
    exact ⟨by simp [Rcpt, hv, he], rfl⟩
  · intro hv he
    simp [Rcpt, hv, he]

/-- Witness for claim C3 at concrete inputs covering all four validation
outcomes. -/
theorem spec_c3_rcpt_outcomes_witness :
    Rcpt [] "u@d" (Except.error ()) = Except.error errTempValidation ∧
    Rcpt [] "u@d" (Except.ok ⟨false, false, 0, 0⟩) = Except.error errUserUnknown ∧
    Rcpt [] "u@d" (Except.ok ⟨true, true, 0, 0⟩) = Except.error errAddressExpired ∧
    Rcpt [] "u@d" (Except.ok ⟨true, false, 7, 9⟩) =
      Except.ok [{ address := extractEmailAddress "u@d", storageUsed := 7, storageQuota := 9 }] :=
  ⟨(spec_c3_rcpt_outcomes [] "u@d" ⟨false, false, 0, 0⟩).1.1,
   ((spec_c3_rcpt_outcomes [] "u@d" ⟨false, false, 0, 0⟩).2.1 rfl).1,
   ((spec_c3_rcpt_outcomes [] "u@d" ⟨true, true, 0, 0⟩).2.2.1 rfl rfl).1,
   (spec_c3_rcpt_outcomes [] "u@d" ⟨true, false, 7, 9⟩).2.2.2 rfl rfl⟩

/-- Claim C5: with DMARC checking enabled and a nonempty sender domain, the
DMARC verdict is none when no policy record is published, temperror when
the lookup fails with an error other than no-policy, pass when a policy
exists and the SPF or DKIM verdict is pass, and fail when a policy exists
and neither verdict is pass. -/
theorem spec_c5_dmarc_verdict (cfg : Config) (fromAddr : String) (ip : Bool)
    (env : AuthEnv) (hd : cfg.ValidateDMARC = true)
    (hdom : extractDomain fromAddr ≠ "") :
    (env.dmarcLookup = DmarcLookup.noPolicy →
      (validateEmailAuth cfg fromAddr ip env).DMARCResult = "none") ∧
    (env.dmarcLookup = DmarcLookup.otherError →
      (validateEmailAuth cfg fromAddr ip env).DMARCResult = "temperror") ∧
    (env.dmarcLookup = DmarcLookup.record →
      ((validateEmailAuth cfg fromAddr ip env).SPFResult = "pass" ∨
       (validateEmailAuth cfg fromAddr ip env).DKIMResult = "pass" →
        (validateEmailAuth cfg fromAddr ip env).DMARCResult = "pass") ∧
      ((validateEmailAuth cfg fromAddr ip env).SPFResult ≠ "pass" →
       (validateEmailAuth cfg fromAddr ip env).DKIMResult ≠ "pass" →
        (validateEmailAuth cfg fromAddr ip env).DMARCResult = "fail")) := by
  have hb : (cfg.ValidateDMARC && !(extractDomain fromAddr == "")) = true := by
    simp [hd, hdom]
  refine ⟨?_, ?_, ?_⟩
  · intro hl
    simp [validateEmailAuth, dmarcSection, hb, hl]
  · intro hl
    simp [validateEmailAuth, dmarcSection, hb, hl]
  · intro hl
    constructor
    · intro hpass
      rcases hpass with hs | hk
      · simp only [validateEmailAuth] at hs ⊢
        simp [dmarcSection, hb, hl, hs]
      · simp only [validateEmailAuth] at hk ⊢
        simp [dmarcSection, hb, hl, hk]
    · intro hs hk
      simp only [validateEmailAuth] at hs hk ⊢
      simp [dmarcSection, hb, hl, hs, hk]

/-- Witness for claim C5: DMARC enabled, sender domain "d", no published
policy record gives verdict none. -/
theorem spec_c5_dmarc_verdict_witness :
    (validateEmailAuth ⟨1000, false, false, true, "reject"⟩ "u@d" false
      ⟨Except.ok SpfResult.None, Except.ok [], DmarcLookup.noPolicy⟩).DMARCResult = "none" :=
  (spec_c5_dmarc_verdict ⟨1000, false, false, true, "reject"⟩ "u@d" false
    ⟨Except.ok SpfResult.None, Except.ok [], DmarcLookup.noPolicy⟩ rfl
    (by decide)).1 rfl

/-- Claim C6: shouldRejectEmail returns true exactly when the policy is
reject and some enabled check yielded a hard-failure verdict (SPF fail or
permerror, DKIM fail, DMARC fail); under any other policy nothing is
rejected. -/
theorem spec_c6_reject_policy (cfg : Config) (a : AuthResult) :
    shouldRejectEmail cfg a = true ↔
      (cfg.AuthPolicy = "reject" ∧
        ((cfg.ValidateSPF = true ∧ (a.SPFResult = "fail" ∨ a.SPFResult = "permerror")) ∨
         (cfg.ValidateDKIM = true ∧ a.DKIMResult = "fail") ∨
         (cfg.ValidateDMARC = true ∧ a.DMARCResult = "fail"))) := by
  simp only [shouldRejectEmail]
  split_ifs with h1 h2 h3 h4 <;> simp_all

/-! ## SMTP session: the Data phase (main.go Session.Data) -/

/-- Oracles standing for the environment of one Data call: whether reading
the limited stream succeeds, and whether SaveEmail and the retried
StoreEmail call succeed for a given recipient address. -/
structure DataEnv where
  readOk : Bool
  saveOk : String → Bool
  storeOk : String → Bool

/-- Observable effects of one Data call: the SMTP result (none means the
handler returned nil and the transaction was accepted), the number of body
bytes consumed, and the recipients for which each side effect happened.
A store notification that succeeds makes the API service publish to the
hub, so publishedFor records exactly the recipients with a successful
store call. -/
structure DataEffects where
  smtpResult : Option SMTPError
  bytesRead : Nat
  processedFor : List recipientInfo
  filesWrittenFor : List recipientInfo
  storeNotifiedFor : List recipientInfo
  publishedFor : List recipientInfo
deriving Repr, DecidableEq

/-- Quota test from the per-recipient loop of Session.Data: quota tracking
is on (limit positive) and used plus message size exceeds the limit. -/
def overQuota (r : recipientInfo) (emailSize : Int) : Bool :=
  decide (0 < r.storageQuota) && decide (r.storageQuota < r.storageUsed + emailSize)

/-- Effects record with empty per-recipient lists, for the rejection
branches of Data. -/
def noRecipientEffects (result : Option SMTPError) (bytesRead : Nat) : DataEffects :=
  { smtpResult := result, bytesRead := bytesRead, processedFor := [],
    filesWrittenFor := [], storeNotifiedFor := [], publishedFor := [] }

/-- Embedding of Session.Data in main.go.  The steps in order: fail with
554 when no recipient was accepted (before any read); read through
io.LimitReader, which yields min(bodyLen, MaxEmailSize) bytes; fail with
451 when the read errors; fail with 552 when the bytes read reach
MaxEmailSize; when any auth check is enabled and shouldRejectEmail says so,
fail with 550; otherwise run the per-recipient loop, which silently skips
recipients over quota and calls processEmail for the rest.  processEmail
saves the raw file, and issues the store call only when the save succeeded;
a successful store is what triggers the hub publish in the API service. -/
def dataPhase (cfg : Config) (fromAddr : String) (clientIPnonNil : Bool)
    (recipients : List recipientInfo) (bodyLen : Nat)
    (authEnv : AuthEnv) (env : DataEnv) : DataEffects :=
  if recipients.length = 0 then
    noRecipientEffects (some errNoValidRecipients) 0
  else
    let readLen := min bodyLen cfg.MaxEmailSize
    if env.readOk = false then
      noRecipientEffects (some errReadFailed) readLen
    else if cfg.MaxEmailSize ≤ readLen then
      noRecipientEffects (some errTooLarge) readLen
    else if (cfg.ValidateSPF || cfg.ValidateDKIM || cfg.ValidateDMARC) &&
        shouldRejectEmail cfg (validateEmailAuth cfg fromAddr clientIPnonNil authEnv) then
      noRecipientEffects (some errAuthFailed) readLen
    else
      let emailSize : Int := readLen
      let processed := recipients.filter (fun r => !overQuota r emailSize)
      let saved := processed.filter (fun r => env.saveOk r.address)
      { smtpResult := none
        bytesRead := readLen
        processedFor := processed
        filesWrittenFor := saved
        storeNotifiedFor := saved
        publishedFor := saved.filter (fun r => env.storeOk r.address) }

/-! ## Theorems for claims C1, C4, C8 and C10 -/

/-- Claim C1: in an accepted transaction, a recipient whose quota limit is
positive and whose quota-used plus message size exceeds the limit is
silently skipped: no file write, no store notification, no hub publish for
it, no SMTP error for the skip, and every sibling recipient within quota is
processed normally. -/
theorem spec_c1_quota_skip (cfg : Config) (fromAddr : String) (ip : Bool)
    (recipients : List recipientInfo) (bodyLen : Nat) (authEnv : AuthEnv)
    (env : DataEnv) (r : recipientInfo)
    (hmem : r ∈ recipients)
    (hq : 0 < r.storageQuota)
    (hover : r.storageQuota < r.storageUsed + (bodyLen : Int))
    (hread : env.readOk = true)
    (hsize : bodyLen < cfg.MaxEmailSize)
    (hauth : ((cfg.ValidateSPF || cfg.ValidateDKIM || cfg.ValidateDMARC) &&
      shouldRejectEmail cfg (validateEmailAuth cfg fromAddr ip authEnv)) = false) :
    (dataPhase cfg fromAddr ip recipients bodyLen authEnv env).smtpResult = none ∧
    r ∉ (dataPhase cfg fromAddr ip recipients bodyLen authEnv env).processedFor ∧
    r ∉ (dataPhase cfg fromAddr ip recipients bodyLen authEnv env).filesWrittenFor ∧
    r ∉ (dataPhase cfg fromAddr ip recipients bodyLen authEnv env).storeNotifiedFor ∧
    r ∉ (dataPhase cfg fromAddr ip recipients bodyLen authEnv env).publishedFor ∧
    (∀ r2 ∈ recipients, overQuota r2 (bodyLen : Int) = false →
      r2 ∈ (dataPhase cfg fromAddr ip recipients bodyLen authEnv env).processedFor) := by
  have hne : ¬ recipients.length = 0 := by
    intro h
    rw [List.length_eq_zero] at h
    subst h
    simp at hmem
  have hmin : min bodyLen cfg.MaxEmailSize = bodyLen := Nat.min_eq_left (Nat.le_of_lt hsize)
  have hnotover : ¬ cfg.MaxEmailSize ≤ min bodyLen cfg.MaxEmailSize := by omega
  have hoq : overQuota r ((min bodyLen cfg.MaxEmailSize : Nat) : Int) = true := by
    rw [hmin]
    simp only [overQuota, Bool.and_eq_true, decide_eq_true_eq]
    exact ⟨hq, hover⟩
  simp only [dataPhase, hne, if_false, hread, Bool.false_eq_true, hnotover, hauth,
    if_true, ite_false, ite_true]
  refine ⟨rfl, ?_, ?_, ?_, ?_, ?_⟩
  · intro hr
    rcases List.mem_filter.mp hr with ⟨_, hpred⟩
    rw [hoq] at hpred
    simp at hpred
  · intro hr
    rcases List.mem_filter.mp hr with ⟨hr2, _⟩
    rcases List.mem_filter.mp hr2 with ⟨_, hpred⟩
    rw [hoq] at hpred
    simp at hpred
  · intro hr
    rcases List.mem_filter.mp hr with ⟨hr2, _⟩
    rcases List.mem_filter.mp hr2 with ⟨_, hpred⟩
    rw [hoq] at hpred
    simp at hpred
  · intro hr
    rcases List.mem_filter.mp hr with ⟨hr2, _⟩
    rcases List.mem_filter.mp hr2 with ⟨hr3, _⟩
    rcases List.mem_filter.mp hr3 with ⟨_, hpred⟩
    rw [hoq] at hpred
    simp at hpred
  · intro r2 hr2 hq2
    refine List.mem_filter.mpr ⟨hr2, ?_⟩
    rw [hmin, hq2]
    rfl

/-- Witness for claim C1: ceiling 1000, body of 10 bytes, first recipient
with 95 of 100 quota bytes used is skipped while the unlimited-quota
sibling is processed. -/
theorem spec_c1_quota_skip_witness :
    (dataPhase ⟨1000, false, false, false, "log"⟩ "s@d" false
        [⟨"over", 95, 100⟩, ⟨"ok", 0, 0⟩] 10
        ⟨Except.ok SpfResult.None, Except.ok [], DmarcLookup.noPolicy⟩
        ⟨true, fun _ => true, fun _ => true⟩).smtpResult = none ∧
    (⟨"over", 95, 100⟩ : recipientInfo) ∉
      (dataPhase ⟨1000, false, false, false, "log"⟩ "s@d" false
        [⟨"over", 95, 100⟩, ⟨"ok", 0, 0⟩] 10
        ⟨Except.ok SpfResult.None, Except.ok [], DmarcLookup.noPolicy⟩
        ⟨true, fun _ => true, fun _ => true⟩).publishedFor ∧
    (∀ r2 ∈ ([⟨"over", 95, 100⟩, ⟨"ok", 0, 0⟩] : List recipientInfo),
      overQuota r2 ((10 : Nat) : Int) = false →
      r2 ∈ (dataPhase ⟨1000, false, false, false, "log"⟩ "s@d" false
        [⟨"over", 95, 100⟩, ⟨"ok", 0, 0⟩] 10
        ⟨Except.ok SpfResult.None, Except.ok [], DmarcLookup.noPolicy⟩
        ⟨true, fun _ => true, fun _ => true⟩).processedFor) :=
  ⟨(spec_c1_quota_skip ⟨1000, false, false, false, "log"⟩ "s@d" false
      [⟨"over", 95, 100⟩, ⟨"ok", 0, 0⟩] 10
      ⟨Except.ok SpfResult.None, Except.ok [], DmarcLookup.noPolicy⟩
      ⟨true, fun _ => true, fun _ => true⟩ ⟨"over", 95, 100⟩
      (by decide) (by decide) (by decide) rfl (by decide) rfl).1,
   (spec_c1_quota_skip ⟨1000, false, false, false, "log"⟩ "s@d" false
      [⟨"over", 95, 100⟩, ⟨"ok", 0, 0⟩] 10
      ⟨Except.ok SpfResult.None, Except.ok [], DmarcLookup.noPolicy⟩
      ⟨true, fun _ => true, fun _ => true⟩ ⟨"over", 95, 100⟩
      (by decide) (by decide) (by decide) rfl (by decide) rfl).2.2.2.2.1,
   (spec_c1_quota_skip ⟨1000, false, false, false, "log"⟩ "s@d" false
      [⟨"over", 95, 100⟩, ⟨"ok", 0, 0⟩] 10
      ⟨Except.ok SpfResult.None, Except.ok [], DmarcLookup.noPolicy⟩
      ⟨true, fun _ => true, fun _ => true⟩ ⟨"over", 95, 100⟩
      (by decide) (by decide) (by decide) rfl (by decide) rfl).2.2.2.2.2⟩

/-- Claim C4: a transaction whose body exceeds the size ceiling is rejected
with the permanent 552 message-too-large error, the partial data is
discarded, and no recipient gets a file write, store notification or
publish event. -/
theorem spec_c4_message_too_large (cfg : Config) (fromAddr : String) (ip : Bool)
    (recipients : List recipientInfo) (bodyLen : Nat) (authEnv : AuthEnv)
    (env : DataEnv)
    (hne : recipients ≠ [])
    (hread : env.readOk = true)
    (hbig : cfg.MaxEmailSize < bodyLen) :
    dataPhase cfg fromAddr ip recipients bodyLen authEnv env =
      noRecipientEffects (some errTooLarge) cfg.MaxEmailSize ∧
    errTooLarge.code = 552 := by
  have hne2 : ¬ recipients.length = 0 := by
    simpa [List.length_eq_zero] using hne
  have hmin : min bodyLen cfg.MaxEmailSize = cfg.MaxEmailSize :=
    Nat.min_eq_right (Nat.le_of_lt hbig)
  refine ⟨?_, rfl⟩
  simp [dataPhase, hne2, hread, hmin]

/-- Witness for claim C4, the concrete scenario with ceiling 1000 and a
1001-byte payload. -/
theorem spec_c4_message_too_large_witness :
    dataPhase ⟨1000, false, false, false, "log"⟩ "s@d" false [⟨"a", 0, 0⟩] 1001
        ⟨Except.ok SpfResult.None, Except.ok [], DmarcLookup.noPolicy⟩
        ⟨true, fun _ => true, fun _ => true⟩ =
      noRecipientEffects (some errTooLarge) 1000 :=
  (spec_c4_message_too_large ⟨1000, false, false, false, "log"⟩ "s@d" false
    [⟨"a", 0, 0⟩] 1001
    ⟨Except.ok SpfResult.None, Except.ok [], DmarcLookup.noPolicy⟩
    ⟨true, fun _ => true, fun _ => true⟩ (by decide) rfl (by decide)).1

/-- Claim C8: when the accepted-recipients list is empty at the start of the
Data phase, the handler fails with the permanent 554 no-valid-recipients
error and reads zero bytes of the message body. -/
theorem spec_c8_no_valid_recipients (cfg : Config) (fromAddr : String) (ip : Bool)
    (bodyLen : Nat) (authEnv : AuthEnv) (env : DataEnv) :
    dataPhase cfg fromAddr ip [] bodyLen authEnv env =
      noRecipientEffects (some errNoValidRecipients) 0 ∧
    errNoValidRecipients.code = 554 ∧
    (dataPhase cfg fromAddr ip [] bodyLen authEnv env).bytesRead = 0 := by
  refine ⟨?_, rfl, ?_⟩ <;> simp [dataPhase, noRecipientEffects]

/-- Claim C10: the size check fires on length greater than or equal to the
configured maximum: a body of exactly MaxEmailSize bytes is rejected with
the 552 error, the limited reader truncates longer streams to exactly
MaxEmailSize bytes, and an accepted transaction has a body of at most
MaxEmailSize - 1 bytes. -/
theorem spec_c10_size_boundary (cfg : Config) (fromAddr : String) (ip : Bool)
    (recipients : List recipientInfo) (bodyLen : Nat) (authEnv : AuthEnv)
    (env : DataEnv)
    (hne : recipients ≠ [])
    (hread : env.readOk = true) :
    (cfg.MaxEmailSize ≤ bodyLen →
      (dataPhase cfg fromAddr ip recipients bodyLen authEnv env).smtpResult =
        some errTooLarge ∧
      (dataPhase cfg fromAddr ip recipients bodyLen authEnv env).bytesRead =
        cfg.MaxEmailSize) ∧
    ((dataPhase cfg fromAddr ip recipients bodyLen authEnv env).smtpResult = none →
      bodyLen ≤ cfg.MaxEmailSize - 1) := by
  have hne2 : ¬ recipients.length = 0 := by
    simpa [List.length_eq_zero] using hne
  constructor
  · intro hge
    have hmin : min bodyLen cfg.MaxEmailSize = cfg.MaxEmailSize := Nat.min_eq_right hge
    constructor <;>
      simp [dataPhase, hne2, hread, hmin, noRecipientEffects]
  · intro hacc
    by_contra hgt
    have hge : cfg.MaxEmailSize ≤ bodyLen := by omega
    have hmin : min bodyLen cfg.MaxEmailSize = cfg.MaxEmailSize := Nat.min_eq_right hge
    rw [dataPhase] at hacc
    simp [hne2, hread, hmin, noRecipientEffects] at hacc

/-- Witness for claim C10: with ceiling 1000, a body of exactly 1000 bytes
is rejected with the 552 error after reading exactly 1000 bytes. -/
theorem spec_c10_size_boundary_witness :
    (dataPhase ⟨1000, false, false, false, "log"⟩ "s@d" false [⟨"a", 0, 0⟩] 1000
        ⟨Except.ok SpfResult.None, Except.ok [], DmarcLookup.noPolicy⟩
        ⟨true, fun _ => true, fun _ => true⟩).smtpResult = some errTooLarge ∧
    (dataPhase ⟨1000, false, false, false, "log"⟩ "s@d" false [⟨"a", 0, 0⟩] 1000
        ⟨Except.ok SpfResult.None, Except.ok [], DmarcLookup.noPolicy⟩
        ⟨true, fun _ => true, fun _ => true⟩).bytesRead = 1000 :=
  (spec_c10_size_boundary ⟨1000, false, false, false, "log"⟩ "s@d" false
    [⟨"a", 0, 0⟩] 1000
    ⟨Except.ok SpfResult.None, Except.ok [], DmarcLookup.noPolicy⟩
    ⟨true, fun _ => true, fun _ => true⟩ (by decide) rfl).1 (by decide)

/-! ## Fan-out hub (api websocket hub, Hub.Run event loop) -/

/-- Embedding of a websocket Client as seen by the hub: an identity and the
address whose room it subscribes to. -/
structure Client where
  id : Nat
  address : String
deriving Repr, DecidableEq

/-- State of the hub: the clients map from address to the set of registered
clients, absent addresses mapping to none (no map entry). -/
def HubClients : Type := String → Option (List Client)

/-- Hub state after NewHub: an empty clients map. -/
def emptyHub : HubClients := fun _ => none

/-- Pointwise update of the clients map, modelling Go map insert (some) and
delete (none). -/
def hubSet (h : HubClients) (a : String) (v : Option (List Client)) : HubClients :=
  fun x => if x = a then v else h x

/-- Register branch of Hub.Run: create the set for the address when absent,
then put the client in it (a Go map-to-bool set, so insertion is
idempotent). -/
def registerStep (h : HubClients) (c : Client) : HubClients :=
  match h c.address with
  | none => hubSet h c.address (some [c])
  | some s => hubSet h c.address (some (if c ∈ s then s else c :: s))

/-- Unregister branch of Hub.Run: when the address has a set containing the
client, remove the client, and delete the address entry when the set
becomes empty. -/
def unregisterStep (h : HubClients) (c : Client) : HubClients :=
  match h c.address with
  | none => h
  | some s =>
    if c ∈ s then
      if s.erase c = [] then hubSet h c.address none
      else hubSet h c.address (some (s.erase c))
    else h

/-- Broadcast branch of Hub.Run: each subscriber whose send queue is full
(slowFull) is removed from the set, and the address entry is deleted when
the set becomes empty; the loop over the set commutes to a single filter
because fast clients are never removed. -/
def broadcastStep (h : HubClients) (addr : String) (slowFull : Client → Bool) :
    HubClients :=
  match h addr with
  | none => h
  | some s =>
    let s2 := s.filter (fun c => !slowFull c)
    if s2 = [] then hubSet h addr none
    else hubSet h addr (some s2)

/-- Events processed by the Hub.Run select loop. -/
inductive HubEvent
  | register (c : Client)
  | unregister (c : Client)
  | broadcast (addr : String) (slowFull : Client → Bool)

/-- One iteration of the Hub.Run loop. -/
def hubStep (h : HubClients) : HubEvent → HubClients
  | .register c => registerStep h c
  | .unregister c => unregisterStep h c
  | .broadcast addr f => broadcastStep h addr f

/-- Hub state after processing a sequence of events from the empty hub. -/
def hubRun (events : List HubEvent) : HubClients :=
  events.foldl hubStep emptyHub

theorem registerStep_none (h : HubClients) (c : Client) (hc : h c.address = none) :
    registerStep h c = hubSet h c.address (some [c]) := by
  unfold registerStep
  rw [hc]

theorem registerStep_some (h : HubClients) (c : Client) (s0 : List Client)
    (hc : h c.address = some s0) :
    registerStep h c = hubSet h c.address (some (if c ∈ s0 then s0 else c :: s0)) := by
  unfold registerStep
  rw [hc]

theorem unregisterStep_none (h : HubClients) (c : Client) (hc : h c.address = none) :
    unregisterStep h c = h := by
  unfold unregisterStep
  rw [hc]

theorem unregisterStep_some (h : HubClients) (c : Client) (s0 : List Client)
    (hc : h c.address = some s0) :
    unregisterStep h c =
      (if c ∈ s0 then
        (if s0.erase c = [] then hubSet h c.address none
         else hubSet h c.address (some (s0.erase c)))
       else h) := by
  unfold unregisterStep
  rw [hc]

theorem broadcastStep_none (h : HubClients) (addr : String) (f : Client → Bool)
    (hc : h addr = none) :
    broadcastStep h addr f = h := by
  unfold broadcastStep
  rw [hc]

theorem broadcastStep_some (h : HubClients) (addr : String) (f : Client → Bool)
    (s0 : List Client) (hc : h addr = some s0) :
    broadcastStep h addr f =
      (if s0.filter (fun c => !f c) = [] then hubSet h addr none
       else hubSet h addr (some (s0.filter (fun c => !f c)))) := by
  unfold broadcastStep
  rw [hc]

theorem registerStep_inv (h : HubClients) (c : Client)
    (hinv : ∀ a s, h a = some s → s ≠ []) :
    ∀ a s, registerStep h c a = some s → s ≠ [] := by
  intro a s hs
  cases hc : h c.address with
  | none =>
    rw [registerStep_none h c hc] at hs
    unfold hubSet at hs
    by_cases ha : a = c.address
    · rw [if_pos ha] at hs
      cases hs
      simp
    · rw [if_neg ha] at hs
      exact hinv a s hs
  | some s0 =>
    rw [registerStep_some h c s0 hc] at hs
    unfold hubSet at hs
    by_cases ha : a = c.address
    · rw [if_pos ha] at hs
      cases hs
      by_cases hmem : c ∈ s0
      · rw [if_pos hmem]
        exact hinv c.address s0 hc
      · rw [if_neg hmem]
        simp
    · rw [if_neg ha] at hs
      exact hinv a s hs

theorem unregisterStep_inv (h : HubClients) (c : Client)
    (hinv : ∀ a s, h a = some s → s ≠ []) :
    ∀ a s, unregisterStep h c a = some s → s ≠ [] := by
  intro a s hs
  cases hc : h c.address with
  | none =>
    rw [unregisterStep_none h c hc] at hs
    exact hinv a s hs
  | some s0 =>
    rw [unregisterStep_some h c s0 hc] at hs
    by_cases hmem : c ∈ s0
    · rw [if_pos hmem] at hs
      by_cases hemp : s0.erase c = []
      · rw [if_pos hemp] at hs
        unfold hubSet at hs
        by_cases ha : a = c.address
        · rw [if_pos ha] at hs
          cases hs
        · rw [if_neg ha] at hs
          exact hinv a s hs
      · rw [if_neg hemp] at hs
        unfold hubSet at hs
        by_cases ha : a = c.address
        · rw [if_pos ha] at hs
          cases hs
          exact hemp
        · rw [if_neg ha] at hs
          exact hinv a s hs
    · rw [if_neg hmem] at hs
      exact hinv a s hs

theorem broadcastStep_inv (h : HubClients) (addr : String) (f : Client → Bool)
    (hinv : ∀ a s, h a = some s → s ≠ []) :
    ∀ a s, broadcastStep h addr f a = some s → s ≠ [] := by
  intro a s hs
  cases hc : h addr with
  | none =>
    rw [broadcastStep_none h addr f hc] at hs
    exact hinv a s hs
  | some s0 =>
    rw [broadcastStep_some h addr f s0 hc] at hs
    by_cases hemp : s0.filter (fun c => !f c) = []
    · rw [if_pos hemp] at hs
      unfold hubSet at hs
      by_cases ha : a = addr
      · rw [if_pos ha] at hs
        cases hs
      · rw [if_neg ha] at hs
        exact hinv a s hs
    · rw [if_neg hemp] at hs
      unfold hubSet at hs
      by_cases ha : a = addr
      · rw [if_pos ha] at hs
        cases hs
        exact hemp
      · rw [if_neg ha] at hs
        exact hinv a s hs

theorem hubStep_inv (h : HubClients) (e : HubEvent)
    (hinv : ∀ a s, h a = some s → s ≠ []) :
    ∀ a s, hubStep h e a = some s → s ≠ [] := by
  cases e with
  | register c => exact registerStep_inv h c hinv
  | unregister c => exact unregisterStep_inv h c hinv
  | broadcast addr f => exact broadcastStep_inv h addr f hinv

theorem hubFold_inv (events : List HubEvent) :
    ∀ h : HubClients, (∀ a s, h a = some s → s ≠ []) →
      ∀ a s, events.foldl hubStep h a = some s → s ≠ [] := by
  induction events with
  | nil => intro h hinv; exact hinv
  | cons e es ih =>
    intro h hinv
    exact ih (hubStep h e) (hubStep_inv h e hinv)

/-- Claim C7: after any sequence of register, unregister and broadcast
events (the latter forcibly removing slow subscribers with a full send
queue) starting from the empty hub, every address present as a key in the
clients map has a non-empty subscriber set. -/
theorem spec_c7_hub_no_empty_rooms (events : List HubEvent) :
    ∀ a s, hubRun events a = some s → s ≠ [] := by
  unfold hubRun
  exact hubFold_inv events emptyHub (fun a s hs => by cases hs)

/-- Witness for claim C7: after registering one client and removing a slow
sibling by broadcast, the room for address "x" is the non-empty singleton. -/
theorem spec_c7_hub_no_empty_rooms_witness :
    ([⟨1, "x"⟩] : List Client) ≠ [] :=
  spec_c7_hub_no_empty_rooms
    [HubEvent.register ⟨1, "x"⟩, HubEvent.register ⟨2, "x"⟩,
     HubEvent.broadcast "x" (fun c => c.id == 2)]
    "x" [⟨1, "x"⟩] (by decide)

end TmpEmail
